import Mathlib

/-!
LLCC68 ESP32 interface layer.

A shallow embedding of `src/interface/driver_llcc68_interface_esp32.c`.

The file is glue between the LLCC68 driver and the ESP-IDF platform. Its only
own state is the global `spi_lora_dev_handle`; everything else it does is a
call into the platform. The embedding therefore

* keeps the global handle in `State`,
* records every platform call, with its arguments, in `State.trace`
  (in program order), and
* takes the value each platform call returns as an argument of the embedded
  function, so that a theorem quantifying over these arguments speaks about
  every platform behaviour.

Pointers are machine addresses (`Nat`, `NULL = 0`), `esp_err_t` is `Int` with
`ESP_OK = 0`, `uint32_t` arithmetic is `Nat` arithmetic reduced modulo `2^32`,
and a `uint8_t` status is the `Nat` `0` or `1`.
-/

namespace LLCC68

/-! ## Platform types -/

/-- The ESP-IDF status type (a C `int`). -/
abbrev esp_err_t := Int

/-- Status value of a platform call that succeeded. -/
def ESP_OK : esp_err_t := 0

/-- The null pointer. -/
def NULL : Nat := 0

/-- A device handle is a pointer; `NULL` means that no device is claimed. -/
abbrev spi_device_handle_t := Nat

/-- The SPI host controllers of the platform. -/
inductive spi_host_device_t where
  | SPI1_HOST
  | SPI2_HOST
  | SPI3_HOST
  deriving DecidableEq, Repr

/-- The DMA channel selectors of the platform. -/
inductive spi_dma_chan_t where
  | SPI_DMA_DISABLED
  | SPI_DMA_CH1
  | SPI_DMA_CH2
  | SPI_DMA_CH_AUTO
  deriving DecidableEq, Repr

/-- GPIO numbers: `GPIO_NUM_n` is pin `n`. -/
abbrev gpio_num_t := Int

def GPIO_NUM_7 : gpio_num_t := 7
def GPIO_NUM_8 : gpio_num_t := 8
def GPIO_NUM_33 : gpio_num_t := 33
def GPIO_NUM_34 : gpio_num_t := 34
def GPIO_NUM_35 : gpio_num_t := 35

/-- The fields of `spi_bus_config_t` that `llcc68_interface_spi_init` sets. -/
structure spi_bus_config_t where
  miso_io_num : Int
  mosi_io_num : Int
  sclk_io_num : Int
  quadwp_io_num : Int
  quadhd_io_num : Int
  deriving DecidableEq, Repr

/-- The fields of `spi_device_interface_config_t` that
`llcc68_interface_spi_init` sets. -/
structure spi_device_interface_config_t where
  clock_speed_hz : Int
  mode : Nat
  spics_io_num : Int
  queue_size : Int
  flags : Nat
  pre_cb : Nat
  deriving DecidableEq, Repr

/-- The fields of `spi_transaction_t` that `llcc68_interface_spi_write_read`
sets after zero-initialising the descriptor. `length` is in bits. -/
structure spi_transaction_t where
  flags : Nat
  length : Nat
  tx_buffer : Nat
  rx_buffer : Nat
  deriving DecidableEq, Repr

/-- One call into the platform, with the arguments the interface passes. -/
inductive PlatformCall where
  | spi_bus_initialize (host : spi_host_device_t) (cfg : spi_bus_config_t)
      (dma : spi_dma_chan_t)
  | spi_bus_add_device (host : spi_host_device_t)
      (cfg : spi_device_interface_config_t)
  | spi_bus_remove_device (handle : spi_device_handle_t)
  | spi_bus_free (host : spi_host_device_t)
  | spi_device_transmit (handle : spi_device_handle_t) (t : spi_transaction_t)
  | gpio_set_level (pin : gpio_num_t) (level : Nat)
  | ESP_LOGE (tag : String) (fmt : String) (args : List Int)
  | ESP_LOGW (tag : String) (fmt : String) (arg : String)
  deriving DecidableEq, Repr

namespace PlatformCall

/-- Is the call a bus transaction? -/
def isTransmit : PlatformCall → Bool
  | spi_device_transmit _ _ => true
  | _ => false

/-- Is the call a release of the bus? -/
def isBusFree : PlatformCall → Bool
  | spi_bus_free _ => true
  | _ => false

/-- Is the call a release of a device slot? -/
def isRemoveDevice : PlatformCall → Bool
  | spi_bus_remove_device _ => true
  | _ => false

/-- Is the call a GPIO level write? -/
def isGpioSetLevel : PlatformCall → Bool
  | gpio_set_level _ _ => true
  | _ => false

/-- Is the call one of the SPI or GPIO services of the platform (as opposed
to a log line)? -/
def isSpiOrGpio : PlatformCall → Bool
  | ESP_LOGE _ _ _ => false
  | ESP_LOGW _ _ _ => false
  | _ => true

end PlatformCall

/-! ## Program state -/

/-- The global `spi_lora_dev_handle` together with the record of the platform
calls made so far. -/
structure State where
  spi_lora_dev_handle : spi_device_handle_t
  trace : List PlatformCall
  deriving DecidableEq, Repr

namespace State

/-- The state at program start: `spi_device_handle_t spi_lora_dev_handle = NULL;`
and no platform call made. -/
def init : State := ⟨NULL, []⟩

/-- Record one platform call. -/
def call (s : State) (c : PlatformCall) : State :=
  ⟨s.spi_lora_dev_handle, s.trace ++ [c]⟩

/-- Assign the global handle. -/
def setHandle (s : State) (h : spi_device_handle_t) : State :=
  ⟨h, s.trace⟩

end State

/-- What `spi_bus_add_device` answers: its status and, when it stores through
the `handle` out-parameter, the value stored (`none`: the variable is left
untouched). -/
structure AddDeviceReply where
  ret : esp_err_t
  stored : Option spi_device_handle_t
  deriving DecidableEq, Repr

/-! ## SPI transport -/

/-- The local `spi_bus_cfg` of `llcc68_interface_spi_init`. -/
def spi_bus_cfg : spi_bus_config_t :=
  ⟨GPIO_NUM_34, GPIO_NUM_35, GPIO_NUM_33, -1, -1⟩

/-- The local `lora_dev` of `llcc68_interface_spi_init`. -/
def lora_dev : spi_device_interface_config_t :=
  ⟨9000000, 0, GPIO_NUM_7, 1, 0, NULL⟩

/-- Function `llcc68_interface_spi_init`, lines 48-89. `r_init` is the status of
`spi_bus_initialize`, `r_add` the answer of `spi_bus_add_device`. -/
def llcc68_interface_spi_init (r_init : esp_err_t) (r_add : AddDeviceReply)
    (s : State) : Nat × State :=
  let s1 := s.call
    ( PlatformCall.spi_bus_initialize .SPI3_HOST spi_bus_cfg .SPI_DMA_CH_AUTO)
  let retval := r_init
  if retval ≠ ESP_OK then
    (1, s1.call (.ESP_LOGE "llcc68_SPI_init" "SPI bus couldn't init!" []))
  else
    let s2 := s1.call (.spi_bus_add_device .SPI3_HOST lora_dev)
    let s3 := match r_add.stored with
      | some h => s2.setHandle h
      | none => s2
    let retval := r_add.ret
    if retval ≠ ESP_OK then
      (1, s3.call (.ESP_LOGE "llcc68_SPI_init"
        "SPI device couldn't be added to bus!" []))
    else
      (0, s3)

/-- Lines 114-121 of `llcc68_interface_spi_deinit`: free the SPI bus.
`r_free` is the status of `spi_bus_free`. -/
def spi_deinit_free_bus (r_free : esp_err_t) (s : State) : Nat × State :=
  let s1 := s.call (.spi_bus_free .SPI3_HOST)
  let ret := r_free
  if ret ≠ ESP_OK then
    (1, s1.call (.ESP_LOGE "SPI_DEINIT" "Failed to free SPI bus" []))
  else
    (0, s1)

/-- Function `llcc68_interface_spi_deinit`, lines 98-122. `r_remove` is the status of
`spi_bus_remove_device`, `r_free` the status of `spi_bus_free`. -/
def llcc68_interface_spi_deinit (r_remove r_free : esp_err_t) (s : State) :
    Nat × State :=
  if s.spi_lora_dev_handle ≠ NULL then
    let s1 := s.call (.spi_bus_remove_device s.spi_lora_dev_handle)
    let ret := r_remove
    if ret ≠ ESP_OK then
      (1, s1.call (.ESP_LOGE "SPI_DEINIT" "Failed to remove SPI device" []))
    else
      spi_deinit_free_bus r_free (s1.setHandle NULL)
  else
    spi_deinit_free_bus r_free s

/-- Lines 152-157 of `llcc68_interface_spi_write_read`: the transaction
descriptor. The lengths are `uint32_t`, so `bytes * 8` is computed modulo
`2^32`. -/
def write_read_transaction (in_buf in_len out_buf out_len : Nat) :
    spi_transaction_t :=
  let bytes := if in_len > out_len then in_len else out_len
  { flags := 0
    length := (bytes * 8) % 2 ^ 32
    tx_buffer := if in_len > 0 then in_buf else NULL
    rx_buffer := if out_len > 0 then out_buf else NULL }

/-- Function `llcc68_interface_spi_write_read`, lines 135-166. `r_tx` is the status of
`spi_device_transmit`. -/
def llcc68_interface_spi_write_read (in_buf in_len out_buf out_len : Nat)
    (r_tx : esp_err_t) (s : State) : Nat × State :=
  if s.spi_lora_dev_handle = NULL then
    (1, s.call
      (.ESP_LOGE "llcc68_spi_wr_rd" "spi lora dev not initialized?" []))
  else if in_len = 0 ∧ out_len = 0 then
    (0, s)
  else
    let t := write_read_transaction in_buf in_len out_buf out_len
    let s1 := s.call (.spi_device_transmit s.spi_lora_dev_handle t)
    let ret := r_tx
    if ret ≠ ESP_OK then
      (1, s1.call
        (.ESP_LOGE "llcc68_spi_wr_rd" "spi_device_transmit failed: %d" [ret]))
    else
      (0, s1)

/-! ## Reset line -/

/-- Function `llcc68_interface_reset_gpio_write`, lines 216-227. `r_set` is the status
of `gpio_set_level`. -/
def llcc68_interface_reset_gpio_write (data : Nat) (r_set : esp_err_t)
    (s : State) : Nat × State :=
  let gpio_val : Nat := if data ≠ 0 then 0 else 1
  let s1 := s.call (.gpio_set_level GPIO_NUM_8 gpio_val)
  let ret := r_set
  if ret ≠ ESP_OK then
    (1, s1.call (.ESP_LOGE "llcc68_spi_gpio_rst" "Reset gpio write failed!" []))
  else
    (0, s1)

/-! ## Diagnostics and event dispatch -/

/-- The outcome of `vsnprintf(buf, size, fmt, args)` for an ASCII format that
holds no conversion specification (no `%`): the format itself, cut to the
`size - 1` characters (one byte each) that fit in front of the terminating
NUL. It is not the C function for any other format. Every format passed in
this file is of that kind and takes no variadic argument. -/
def vsnprintf (size : Nat) (fmt : String) : String :=
  String.mk (fmt.data.take (size - 1))

/-- Function `llcc68_interface_debug_print`, lines 298-308, called without variadic
arguments: renders `fmt` into `char buf[128]` and logs the buffer. -/
def llcc68_interface_debug_print (fmt : String) (s : State) : State :=
  let buf := vsnprintf 128 fmt
  s.call (.ESP_LOGW "llcc68" "%s" buf)

/-- The ten enumerators of `llcc68_irq_t` used as `case` labels. The
enumeration is declared in the driver header, which is not part of this
source file, so their values are parameters. -/
structure llcc68_irq_t where
  LLCC68_IRQ_TX_DONE : Nat
  LLCC68_IRQ_RX_DONE : Nat
  LLCC68_IRQ_PREAMBLE_DETECTED : Nat
  LLCC68_IRQ_SYNC_WORD_VALID : Nat
  LLCC68_IRQ_HEADER_VALID : Nat
  LLCC68_IRQ_HEADER_ERR : Nat
  LLCC68_IRQ_CRC_ERR : Nat
  LLCC68_IRQ_CAD_DONE : Nat
  LLCC68_IRQ_CAD_DETECTED : Nat
  LLCC68_IRQ_TIMEOUT : Nat
  deriving DecidableEq, Repr

/-- The case labels of the `switch`, in source order. -/
def llcc68_irq_t.labels (q : llcc68_irq_t) : List Nat :=
  [q.LLCC68_IRQ_TX_DONE, q.LLCC68_IRQ_RX_DONE, q.LLCC68_IRQ_PREAMBLE_DETECTED,
   q.LLCC68_IRQ_SYNC_WORD_VALID, q.LLCC68_IRQ_HEADER_VALID,
   q.LLCC68_IRQ_HEADER_ERR, q.LLCC68_IRQ_CRC_ERR, q.LLCC68_IRQ_CAD_DONE,
   q.LLCC68_IRQ_CAD_DETECTED, q.LLCC68_IRQ_TIMEOUT]

/-- The enumerator values of the LibDriver header `driver_llcc68.h`
(bit `i` of the chip's IRQ status word for the `i`-th kind); a concrete
instance of the parameters. -/
def libdriver_irq : llcc68_irq_t :=
  ⟨1, 2, 4, 8, 16, 32, 64, 128, 256, 512⟩

/-- Function `llcc68_interface_receive_callback`, lines 317-390. The `switch` is read
as a chain of comparisons in label order; C requires the labels of a `switch`
to be pairwise distinct, so at most one comparison succeeds. -/
def llcc68_interface_receive_callback (q : llcc68_irq_t) (type : Nat)
    (_buf : Nat) (_len : Nat) (s : State) : State :=
  if type = q.LLCC68_IRQ_TX_DONE then
    llcc68_interface_debug_print "llcc68: irq tx done.\n" s
  else if type = q.LLCC68_IRQ_RX_DONE then
    llcc68_interface_debug_print "llcc68: irq rx done.\n" s
  else if type = q.LLCC68_IRQ_PREAMBLE_DETECTED then
    llcc68_interface_debug_print "llcc68: irq preamble detected.\n" s
  else if type = q.LLCC68_IRQ_SYNC_WORD_VALID then
    llcc68_interface_debug_print "llcc68: irq valid sync word detected.\n" s
  else if type = q.LLCC68_IRQ_HEADER_VALID then
    llcc68_interface_debug_print "llcc68: irq valid header.\n" s
  else if type = q.LLCC68_IRQ_HEADER_ERR then
    llcc68_interface_debug_print "llcc68: irq header error.\n" s
  else if type = q.LLCC68_IRQ_CRC_ERR then
    llcc68_interface_debug_print "llcc68: irq crc error.\n" s
  else if type = q.LLCC68_IRQ_CAD_DONE then
    llcc68_interface_debug_print "llcc68: irq cad done.\n" s
  else if type = q.LLCC68_IRQ_CAD_DETECTED then
    llcc68_interface_debug_print "llcc68: irq cad detected.\n" s
  else if type = q.LLCC68_IRQ_TIMEOUT then
    llcc68_interface_debug_print "llcc68: irq timeout.\n" s
  else
    llcc68_interface_debug_print "llcc68: unknown code.\n" s

/-- The error line of the handle check of `llcc68_interface_spi_write_read`. -/
def write_read_not_initialized : PlatformCall :=
  .ESP_LOGE "llcc68_spi_wr_rd" "spi lora dev not initialized?" []

theorem write_read_of_absent (in_buf in_len out_buf out_len : Nat)
    (r_tx : esp_err_t) (s : State) (h : s.spi_lora_dev_handle = NULL) :
    llcc68_interface_spi_write_read in_buf in_len out_buf out_len r_tx s
      = (1, s.call write_read_not_initialized) := by
  simp [llcc68_interface_spi_write_read, h, write_read_not_initialized]

theorem call_trace (s : State) (c : PlatformCall) :
    (s.call c).trace = s.trace ++ [c] := rfl

/-- With the handle present and the lengths not both zero, the call appends
one `spi_device_transmit` of the descriptor of lines 152-157 and, after it, at
most an error line. -/
theorem write_read_of_present (in_buf in_len out_buf out_len : Nat)
    (r_tx : esp_err_t) (s : State) (hh : s.spi_lora_dev_handle ≠ NULL)
    (hz : ¬ (in_len = 0 ∧ out_len = 0)) :
    ∃ rest,
      (llcc68_interface_spi_write_read in_buf in_len out_buf out_len r_tx s).2.trace
          = s.trace ++ .spi_device_transmit s.spi_lora_dev_handle
              (write_read_transaction in_buf in_len out_buf out_len) :: rest
        ∧ (∀ c ∈ rest, c.isSpiOrGpio = false) := by
  by_cases hr : r_tx = ESP_OK
  · refine ⟨[], ?_, by simp⟩
    simp [llcc68_interface_spi_write_read, hh, hz, hr, call_trace]
  · refine ⟨[.ESP_LOGE "llcc68_spi_wr_rd" "spi_device_transmit failed: %d" [r_tx]],
      ?_, by simp [PlatformCall.isSpiOrGpio]⟩
    simp [llcc68_interface_spi_write_read, hh, hz, hr, call_trace]

/-- The status of `llcc68_interface_spi_write_read` when a transaction is
issued: `1` exactly when the platform rejects it. -/
theorem write_read_status_of_present (in_buf in_len out_buf out_len : Nat)
    (r_tx : esp_err_t) (s : State) (hh : s.spi_lora_dev_handle ≠ NULL)
    (hz : ¬ (in_len = 0 ∧ out_len = 0)) :
    (llcc68_interface_spi_write_read in_buf in_len out_buf out_len r_tx s).1
      = if r_tx ≠ ESP_OK then 1 else 0 := by
  by_cases hr : r_tx = ESP_OK <;>
    simp [llcc68_interface_spi_write_read, hh, hz, hr]

/-! ## Claims on the SPI exchange -/

/-- C1 (as stated, refuted): with the handle present, `in_len = 2^29` and
`out_len = 0`, the transaction handed to the platform has `length = 0`, not
`8 * max in_len out_len = 2^32`: the `uint32_t` product `bytes * 8` wraps. -/
theorem spi_write_read_length_wraps :
    llcc68_interface_spi_write_read 16 (2 ^ 29) 0 0 ESP_OK ⟨1, []⟩
        = (0, ⟨1, [.spi_device_transmit 1 ⟨0, 0, 16, 0⟩]⟩)
      ∧ (2 : Nat) ^ 29 < 2 ^ 32
      ∧ (⟨0, 0, 16, 0⟩ : spi_transaction_t).length ≠ 8 * max (2 ^ 29) 0 := by
  decide

/-- C1 (amended): for lengths not both zero (32-bit ones in particular) and
the handle present, the one transaction passed to the platform has a bit length equal to
`8 * max in_len out_len` reduced modulo `2^32`; it equals
`8 * max in_len out_len` itself whenever `max in_len out_len < 2^29`. -/
theorem spi_write_read_length (in_buf in_len out_buf out_len : Nat)
    (r_tx : esp_err_t) (s : State)
    (hh : s.spi_lora_dev_handle ≠ NULL)
    (hnz : in_len ≠ 0 ∨ out_len ≠ 0) :
    ∃ t rest,
      (llcc68_interface_spi_write_read in_buf in_len out_buf out_len r_tx s).2.trace
          = s.trace ++ .spi_device_transmit s.spi_lora_dev_handle t :: rest
        ∧ (∀ c ∈ rest, c.isTransmit = false)
        ∧ t.length = (8 * max in_len out_len) % 2 ^ 32
        ∧ (max in_len out_len < 2 ^ 29 → t.length = 8 * max in_len out_len) := by
  have hz : ¬ (in_len = 0 ∧ out_len = 0) := by
    rintro ⟨h1, h2⟩
    rcases hnz with h | h
    · exact h h1
    · exact h h2
  have hlen : (write_read_transaction in_buf in_len out_buf out_len).length
      = (8 * max in_len out_len) % 2 ^ 32 := by
    have hmax : (if in_len > out_len then in_len else out_len)
        = max in_len out_len := by
      split_ifs with h
      · exact (max_eq_left (le_of_lt h)).symm
      · exact (max_eq_right (not_lt.mp h)).symm
    simp only [write_read_transaction, hmax, Nat.mul_comm]
  obtain ⟨rest, htr, hrest⟩ :=
    write_read_of_present in_buf in_len out_buf out_len r_tx s hh hz
  refine ⟨_, rest, htr, ?_, hlen, ?_⟩
  · intro c hc
    have := hrest c hc
    cases c <;> simp_all [PlatformCall.isSpiOrGpio, PlatformCall.isTransmit]
  · intro hlt
    rw [hlen]
    exact Nat.mod_eq_of_lt (by omega)

theorem spi_write_read_length_witness :
    ∃ t rest,
      (llcc68_interface_spi_write_read 16 2 32 1 ESP_OK ⟨1, []⟩).2.trace
          = [] ++ .spi_device_transmit 1 t :: rest
        ∧ (∀ c ∈ rest, c.isTransmit = false)
        ∧ t.length = (8 * max 2 1) % 2 ^ 32
        ∧ (max 2 1 < 2 ^ 29 → t.length = 8 * max 2 1) :=
  spi_write_read_length 16 2 32 1 ESP_OK ⟨1, []⟩ (by decide) (by decide)

/-- C2 (as stated, refuted): in the initial state (handle absent) a call with
both lengths zero returns `1`, not `0`; the handle check comes first. -/
theorem spi_write_read_zero_absent_fails :
    State.init.spi_lora_dev_handle = NULL
      ∧ llcc68_interface_spi_write_read 0 0 0 0 ESP_OK State.init
          = (1, ⟨NULL, [.ESP_LOGE "llcc68_spi_wr_rd"
              "spi lora dev not initialized?" []]⟩)
      ∧ (llcc68_interface_spi_write_read 0 0 0 0 ESP_OK State.init).1 ≠ 0 := by
  decide

/-- C2 (amended): a call with `in_len = 0` and `out_len = 0` never invokes
`spi_device_transmit`. With the handle present it makes no platform call at
all and returns `0`; with the handle absent it returns `1` and only logs an
error line. -/
theorem spi_write_read_zero (in_buf out_buf : Nat) (r_tx : esp_err_t)
    (s : State) :
    llcc68_interface_spi_write_read in_buf 0 out_buf 0 r_tx s
        = (if s.spi_lora_dev_handle = NULL
            then (1, s.call (.ESP_LOGE "llcc68_spi_wr_rd"
              "spi lora dev not initialized?" []))
            else (0, s))
      ∧ (llcc68_interface_spi_write_read in_buf 0 out_buf 0 r_tx s).2.trace.filter
            PlatformCall.isSpiOrGpio
          = s.trace.filter PlatformCall.isSpiOrGpio := by
  by_cases h : s.spi_lora_dev_handle = NULL
  · simp [llcc68_interface_spi_write_read, h, call_trace,
      PlatformCall.isSpiOrGpio]
  · simp [llcc68_interface_spi_write_read, h]

/-- C9: with the handle present and the lengths not both zero, the call makes
exactly one `spi_device_transmit` (followed by at most an error line); the
transmit buffer is `in_buf` if `in_len > 0` and `NULL` otherwise, the receive
buffer is `out_buf` if `out_len > 0` and `NULL` otherwise; the call returns
`1` iff the platform rejects the transaction and `0` otherwise. -/
theorem spi_write_read_one_transaction (in_buf in_len out_buf out_len : Nat)
    (r_tx : esp_err_t) (s : State)
    (hh : s.spi_lora_dev_handle ≠ NULL)
    (hz : ¬ (in_len = 0 ∧ out_len = 0)) :
    ∃ t rest,
      (llcc68_interface_spi_write_read in_buf in_len out_buf out_len r_tx s).2.trace
          = s.trace ++ .spi_device_transmit s.spi_lora_dev_handle t :: rest
        ∧ (∀ c ∈ rest, c.isSpiOrGpio = false)
        ∧ (0 < in_len → t.tx_buffer = in_buf)
        ∧ (in_len = 0 → t.tx_buffer = NULL)
        ∧ (0 < out_len → t.rx_buffer = out_buf)
        ∧ (out_len = 0 → t.rx_buffer = NULL)
        ∧ ((llcc68_interface_spi_write_read in_buf in_len out_buf out_len r_tx s).1 = 1
            ↔ r_tx ≠ ESP_OK)
        ∧ ((llcc68_interface_spi_write_read in_buf in_len out_buf out_len r_tx s).1 = 0
            ↔ r_tx = ESP_OK) := by
  obtain ⟨rest, htr, hrest⟩ :=
    write_read_of_present in_buf in_len out_buf out_len r_tx s hh hz
  have hst := write_read_status_of_present in_buf in_len out_buf out_len r_tx s hh hz
  refine ⟨_, rest, htr, hrest, ?_, ?_, ?_, ?_, ?_, ?_⟩
  · intro h
    simp [write_read_transaction, h]
  · intro h
    simp [write_read_transaction, h]
  · intro h
    simp [write_read_transaction, h]
  · intro h
    simp [write_read_transaction, h]
  · rw [hst]
    by_cases hr : r_tx = ESP_OK <;> simp [hr]
  · rw [hst]
    by_cases hr : r_tx = ESP_OK <;> simp [hr]

theorem spi_write_read_one_transaction_witness :
    ∃ t rest,
      (llcc68_interface_spi_write_read 16 2 32 1 ESP_OK ⟨1, []⟩).2.trace
          = [] ++ .spi_device_transmit 1 t :: rest
        ∧ (∀ c ∈ rest, c.isSpiOrGpio = false)
        ∧ (0 < 2 → t.tx_buffer = 16)
        ∧ (2 = 0 → t.tx_buffer = NULL)
        ∧ (0 < 1 → t.rx_buffer = 32)
        ∧ (1 = 0 → t.rx_buffer = NULL)
        ∧ ((llcc68_interface_spi_write_read 16 2 32 1 ESP_OK ⟨1, []⟩).1 = 1
            ↔ ESP_OK ≠ ESP_OK)
        ∧ ((llcc68_interface_spi_write_read 16 2 32 1 ESP_OK ⟨1, []⟩).1 = 0
            ↔ ESP_OK = ESP_OK) :=
  spi_write_read_one_transaction 16 2 32 1 ESP_OK ⟨1, []⟩ (by decide) (by decide)

/-! ## Claims on teardown -/

/-- C3 (as stated, refuted): with handle `1` present and the device-slot
release rejected (`ESP_FAIL = -1`), the call returns `1` right after the error
line: `spi_bus_free` is not called, although the platform would have accepted
it. -/
theorem spi_deinit_remove_rejected_returns_early :
    llcc68_interface_spi_deinit (-1) ESP_OK ⟨1, []⟩
        = (1, ⟨1, [.spi_bus_remove_device 1,
            .ESP_LOGE "SPI_DEINIT" "Failed to remove SPI device" []]⟩)
      ∧ (llcc68_interface_spi_deinit (-1) ESP_OK ⟨1, []⟩).2.trace.any
          PlatformCall.isBusFree = false := by
  decide

/-- C3 (amended): when the handle is present and the platform rejects the
device-slot release, `llcc68_interface_spi_deinit` logs an error line and
returns `1` at once: `spi_bus_free` is not attempted in that call and the
handle stays present. -/
theorem spi_deinit_remove_rejected (r_remove r_free : esp_err_t) (s : State)
    (hh : s.spi_lora_dev_handle ≠ NULL) (hr : r_remove ≠ ESP_OK) :
    llcc68_interface_spi_deinit r_remove r_free s
        = (1, ⟨s.spi_lora_dev_handle, s.trace ++
            [.spi_bus_remove_device s.spi_lora_dev_handle,
             .ESP_LOGE "SPI_DEINIT" "Failed to remove SPI device" []]⟩)
      ∧ (llcc68_interface_spi_deinit r_remove r_free s).2.trace.filter
            PlatformCall.isBusFree
          = s.trace.filter PlatformCall.isBusFree := by
  have h : llcc68_interface_spi_deinit r_remove r_free s
      = (1, ⟨s.spi_lora_dev_handle, s.trace ++
          [.spi_bus_remove_device s.spi_lora_dev_handle,
           .ESP_LOGE "SPI_DEINIT" "Failed to remove SPI device" []]⟩) := by
    simp [llcc68_interface_spi_deinit, hh, hr, State.call]
  refine ⟨h, ?_⟩
  rw [h]
  simp [PlatformCall.isBusFree]

theorem spi_deinit_remove_rejected_witness :
    llcc68_interface_spi_deinit (-1) ESP_OK ⟨1, []⟩
        = (1, ⟨1, [] ++
            [.spi_bus_remove_device 1,
             .ESP_LOGE "SPI_DEINIT" "Failed to remove SPI device" []]⟩)
      ∧ (llcc68_interface_spi_deinit (-1) ESP_OK ⟨1, []⟩).2.trace.filter
            PlatformCall.isBusFree
          = ([] : List PlatformCall).filter PlatformCall.isBusFree :=
  spi_deinit_remove_rejected (-1) ESP_OK ⟨1, []⟩ (by decide) (by decide)

/-- C4 (as stated, refuted): on a transport that was never opened, a platform
that rejects `spi_bus_free` (`ESP_ERR_INVALID_STATE = 0x103`) makes
`llcc68_interface_spi_deinit` return `1`. -/
theorem spi_deinit_never_opened_can_fail :
    State.init.spi_lora_dev_handle = NULL
      ∧ llcc68_interface_spi_deinit ESP_OK 0x103 State.init
          = (1, ⟨NULL, [.spi_bus_free .SPI3_HOST,
              .ESP_LOGE "SPI_DEINIT" "Failed to free SPI bus" []]⟩)
      ∧ (llcc68_interface_spi_deinit ESP_OK 0x103 State.init).1 ≠ 0 := by
  decide

/-- C4 (amended): with the handle absent, `llcc68_interface_spi_deinit` makes
no `spi_bus_remove_device` call, calls `spi_bus_free` exactly once, and
returns `0` if that call reports `ESP_OK` and `1` (after an error line)
otherwise; the handle stays absent. -/
theorem spi_deinit_absent (r_remove r_free : esp_err_t) (s : State)
    (hh : s.spi_lora_dev_handle = NULL) :
    llcc68_interface_spi_deinit r_remove r_free s
        = (if r_free = ESP_OK
            then (0, ⟨NULL, s.trace ++ [.spi_bus_free .SPI3_HOST]⟩)
            else (1, ⟨NULL, s.trace ++ [.spi_bus_free .SPI3_HOST,
              .ESP_LOGE "SPI_DEINIT" "Failed to free SPI bus" []]⟩))
      ∧ ((llcc68_interface_spi_deinit r_remove r_free s).1 = 0 ↔ r_free = ESP_OK)
      ∧ ((llcc68_interface_spi_deinit r_remove r_free s).1 = 1 ↔ r_free ≠ ESP_OK) := by
  by_cases hf : r_free = ESP_OK <;>
    simp [llcc68_interface_spi_deinit, spi_deinit_free_bus, hh, hf, State.call]

theorem spi_deinit_absent_witness :
    llcc68_interface_spi_deinit ESP_OK 0x103 State.init
        = (if (0x103 : esp_err_t) = ESP_OK
            then (0, ⟨NULL, State.init.trace ++ [.spi_bus_free .SPI3_HOST]⟩)
            else (1, ⟨NULL, State.init.trace ++ [.spi_bus_free .SPI3_HOST,
              .ESP_LOGE "SPI_DEINIT" "Failed to free SPI bus" []]⟩))
      ∧ ((llcc68_interface_spi_deinit ESP_OK 0x103 State.init).1 = 0
          ↔ (0x103 : esp_err_t) = ESP_OK)
      ∧ ((llcc68_interface_spi_deinit ESP_OK 0x103 State.init).1 = 1
          ↔ (0x103 : esp_err_t) ≠ ESP_OK) :=
  spi_deinit_absent ESP_OK 0x103 State.init rfl

/-- C10: with the handle present and both release steps accepted,
`llcc68_interface_spi_deinit` calls `spi_bus_remove_device` on the handle and
then `spi_bus_free`, each once and in that order, returns `0` and leaves the
handle `NULL`; every following `llcc68_interface_spi_write_read` returns `1`
and only logs an error line, with no platform transaction. -/
theorem spi_deinit_accepted (r_remove r_free : esp_err_t) (s : State)
    (hh : s.spi_lora_dev_handle ≠ NULL)
    (hr : r_remove = ESP_OK) (hf : r_free = ESP_OK) :
    llcc68_interface_spi_deinit r_remove r_free s
        = (0, ⟨NULL, s.trace ++
            [.spi_bus_remove_device s.spi_lora_dev_handle,
             .spi_bus_free .SPI3_HOST]⟩)
      ∧ ∀ (in_buf in_len out_buf out_len : Nat) (r_tx : esp_err_t),
          llcc68_interface_spi_write_read in_buf in_len out_buf out_len r_tx
              (llcc68_interface_spi_deinit r_remove r_free s).2
            = (1, ⟨NULL, s.trace ++
                [.spi_bus_remove_device s.spi_lora_dev_handle,
                 .spi_bus_free .SPI3_HOST,
                 .ESP_LOGE "llcc68_spi_wr_rd"
                   "spi lora dev not initialized?" []]⟩) := by
  have h : llcc68_interface_spi_deinit r_remove r_free s
      = (0, ⟨NULL, s.trace ++
          [.spi_bus_remove_device s.spi_lora_dev_handle,
           .spi_bus_free .SPI3_HOST]⟩) := by
    simp [llcc68_interface_spi_deinit, spi_deinit_free_bus, hh, hr, hf,
      State.call, State.setHandle]
  refine ⟨h, ?_⟩
  intro in_buf in_len out_buf out_len r_tx
  rw [h, write_read_of_absent _ _ _ _ _ _ rfl]
  simp [State.call, write_read_not_initialized]

theorem spi_deinit_accepted_witness :
    llcc68_interface_spi_deinit ESP_OK ESP_OK ⟨1, []⟩
        = (0, ⟨NULL, [] ++
            [.spi_bus_remove_device 1, .spi_bus_free .SPI3_HOST]⟩)
      ∧ ∀ (in_buf in_len out_buf out_len : Nat) (r_tx : esp_err_t),
          llcc68_interface_spi_write_read in_buf in_len out_buf out_len r_tx
              (llcc68_interface_spi_deinit ESP_OK ESP_OK ⟨1, []⟩).2
            = (1, ⟨NULL, [] ++
                [.spi_bus_remove_device 1,
                 .spi_bus_free .SPI3_HOST,
                 .ESP_LOGE "llcc68_spi_wr_rd"
                   "spi lora dev not initialized?" []]⟩) :=
  spi_deinit_accepted ESP_OK ESP_OK ⟨1, []⟩ (by decide) rfl rfl

/-! ## Claims on initialisation -/

/-- The calls of a failed `llcc68_interface_spi_init` whose bus bring-up
succeeded: bus bring-up, device-slot claim, error line. -/
def spi_init_add_rejected_calls : List PlatformCall :=
  [ PlatformCall.spi_bus_initialize .SPI3_HOST spi_bus_cfg .SPI_DMA_CH_AUTO,
   .spi_bus_add_device .SPI3_HOST lora_dev,
   .ESP_LOGE "llcc68_SPI_init" "SPI device couldn't be added to bus!" []]

/-- The result of `llcc68_interface_spi_init` when the bus comes up and the
device-slot claim is rejected: the handle is whatever the platform stored, or
its previous value if the platform stored nothing. -/
theorem spi_init_of_add_rejected (r_init : esp_err_t) (r_add : AddDeviceReply)
    (s : State) (h_init : r_init = ESP_OK) (h_rej : r_add.ret ≠ ESP_OK) :
    llcc68_interface_spi_init r_init r_add s
      = (1, ⟨r_add.stored.getD s.spi_lora_dev_handle,
          s.trace ++ spi_init_add_rejected_calls⟩) := by
  obtain ⟨ret, stored⟩ := r_add
  cases stored <;>
    simp_all [llcc68_interface_spi_init, State.call, State.setHandle,
      spi_init_add_rejected_calls]

/-- The result of `llcc68_interface_spi_init` when the bus bring-up is
rejected: one platform call, one error line, handle untouched. -/
theorem spi_init_of_bus_rejected (r_init : esp_err_t) (r_add : AddDeviceReply)
    (s : State) (h_init : r_init ≠ ESP_OK) :
    llcc68_interface_spi_init r_init r_add s
      = (1, ⟨s.spi_lora_dev_handle, s.trace ++
          [ PlatformCall.spi_bus_initialize .SPI3_HOST spi_bus_cfg .SPI_DMA_CH_AUTO,
           .ESP_LOGE "llcc68_SPI_init" "SPI bus couldn't init!" []]⟩) := by
  simp [llcc68_interface_spi_init, h_init, State.call]

/-- C7 (as stated, refuted): from the initial state, when `spi_bus_initialize`
succeeds and `spi_bus_add_device` is rejected (`ESP_FAIL = -1`), the call
returns `1` having called `spi_bus_initialize` and `spi_bus_add_device` only:
`spi_bus_free` is never called, so the bus this call brought up stays up. -/
theorem spi_init_add_rejected_keeps_bus :
    llcc68_interface_spi_init ESP_OK ⟨-1, none⟩ State.init
        = (1, ⟨NULL,
            [ PlatformCall.spi_bus_initialize .SPI3_HOST spi_bus_cfg .SPI_DMA_CH_AUTO,
             .spi_bus_add_device .SPI3_HOST lora_dev,
             .ESP_LOGE "llcc68_SPI_init"
               "SPI device couldn't be added to bus!" []]⟩)
      ∧ (llcc68_interface_spi_init ESP_OK ⟨-1, none⟩ State.init).2.trace.any
          PlatformCall.isBusFree = false := by
  decide

/-- C7 (amended): every failing `llcc68_interface_spi_init` returns `1` and
releases nothing. If `spi_bus_initialize` is rejected the call makes that one
platform call and logs, and the handle keeps its value. If
`spi_bus_initialize` succeeds and `spi_bus_add_device` is rejected the call
makes exactly these two platform calls and logs, without any `spi_bus_free`,
so the bus stays initialised; the code does not assign the handle itself, so
the handle keeps its value if the platform stored nothing and holds the
stored value otherwise. -/
theorem spi_init_failure (r_init : esp_err_t) (r_add : AddDeviceReply)
    (s : State)
    (h_fail : r_init ≠ ESP_OK ∨ r_add.ret ≠ ESP_OK) :
    (llcc68_interface_spi_init r_init r_add s).1 = 1
      ∧ (r_init ≠ ESP_OK →
          (llcc68_interface_spi_init r_init r_add s).2
            = ⟨s.spi_lora_dev_handle, s.trace ++
              [ PlatformCall.spi_bus_initialize .SPI3_HOST spi_bus_cfg
                  .SPI_DMA_CH_AUTO,
               .ESP_LOGE "llcc68_SPI_init" "SPI bus couldn't init!" []]⟩)
      ∧ (r_init = ESP_OK →
          (llcc68_interface_spi_init r_init r_add s).2.trace
            = s.trace ++
              [ PlatformCall.spi_bus_initialize .SPI3_HOST spi_bus_cfg
                  .SPI_DMA_CH_AUTO,
               .spi_bus_add_device .SPI3_HOST lora_dev,
               .ESP_LOGE "llcc68_SPI_init"
                 "SPI device couldn't be added to bus!" []])
      ∧ (r_init = ESP_OK → r_add.stored = none →
          (llcc68_interface_spi_init r_init r_add s).2.spi_lora_dev_handle
            = s.spi_lora_dev_handle)
      ∧ (r_init = ESP_OK → ∀ h, r_add.stored = some h →
          (llcc68_interface_spi_init r_init r_add s).2.spi_lora_dev_handle = h)
      ∧ (llcc68_interface_spi_init r_init r_add s).2.trace.filter
            PlatformCall.isBusFree
          = s.trace.filter PlatformCall.isBusFree := by
  by_cases hi : r_init = ESP_OK
  · have hr : r_add.ret ≠ ESP_OK := by
      rcases h_fail with h | h
      · exact absurd hi h
      · exact h
    rw [spi_init_of_add_rejected r_init r_add s hi hr]
    refine ⟨rfl, fun h => absurd hi h, fun _ => rfl, ?_, ?_, ?_⟩
    · intro _ hst
      simp [hst]
    · intro _ h hst
      simp [hst]
    · simp [spi_init_add_rejected_calls, PlatformCall.isBusFree]
  · rw [spi_init_of_bus_rejected r_init r_add s hi]
    refine ⟨rfl, fun _ => rfl, fun h => absurd h hi, fun h => absurd h hi,
      fun h => absurd h hi, ?_⟩
    simp [PlatformCall.isBusFree]

theorem spi_init_failure_witness :
    (llcc68_interface_spi_init ESP_OK ⟨-1, some 7⟩ ⟨0, []⟩).1 = 1
      ∧ (ESP_OK ≠ ESP_OK →
          (llcc68_interface_spi_init ESP_OK ⟨-1, some 7⟩ ⟨0, []⟩).2
            = ⟨0, [] ++
              [ PlatformCall.spi_bus_initialize .SPI3_HOST spi_bus_cfg
                  .SPI_DMA_CH_AUTO,
               .ESP_LOGE "llcc68_SPI_init" "SPI bus couldn't init!" []]⟩)
      ∧ (ESP_OK = ESP_OK →
          (llcc68_interface_spi_init ESP_OK ⟨-1, some 7⟩ ⟨0, []⟩).2.trace
            = [] ++
              [ PlatformCall.spi_bus_initialize .SPI3_HOST spi_bus_cfg
                  .SPI_DMA_CH_AUTO,
               .spi_bus_add_device .SPI3_HOST lora_dev,
               .ESP_LOGE "llcc68_SPI_init"
                 "SPI device couldn't be added to bus!" []])
      ∧ (ESP_OK = ESP_OK → (some 7 : Option spi_device_handle_t) = none →
          (llcc68_interface_spi_init ESP_OK
              ⟨-1, some 7⟩ ⟨0, []⟩).2.spi_lora_dev_handle
            = 0)
      ∧ (ESP_OK = ESP_OK → ∀ h, (some 7 : Option spi_device_handle_t) = some h →
          (llcc68_interface_spi_init ESP_OK
              ⟨-1, some 7⟩ ⟨0, []⟩).2.spi_lora_dev_handle = h)
      ∧ (llcc68_interface_spi_init ESP_OK ⟨-1, some 7⟩ ⟨0, []⟩).2.trace.filter
            PlatformCall.isBusFree
          = ([] : List PlatformCall).filter PlatformCall.isBusFree :=
  spi_init_failure ESP_OK ⟨-1, some 7⟩ ⟨0, []⟩ (Or.inr (by decide))

/-! ## Claims on the reset line and on event dispatch -/

/-- C5: for every `data`, `llcc68_interface_reset_gpio_write` makes exactly
one `gpio_set_level` call, on the reset pin, with level `0` when `data` is
nonzero and level `1` when `data` is zero (after it, at most an error line);
it returns `0` iff that call returns `ESP_OK` and `1` otherwise. -/
theorem reset_gpio_write_inverts (data : Nat) (r_set : esp_err_t) (s : State) :
    ∃ level rest,
      (llcc68_interface_reset_gpio_write data r_set s).2.trace
          = s.trace ++ .gpio_set_level GPIO_NUM_8 level :: rest
        ∧ (∀ c ∈ rest, c.isSpiOrGpio = false)
        ∧ (data ≠ 0 → level = 0)
        ∧ (data = 0 → level = 1)
        ∧ ((llcc68_interface_reset_gpio_write data r_set s).1 = 0 ↔ r_set = ESP_OK)
        ∧ ((llcc68_interface_reset_gpio_write data r_set s).1 = 1 ↔ r_set ≠ ESP_OK)
        ∧ (llcc68_interface_reset_gpio_write data r_set s).2.spi_lora_dev_handle
            = s.spi_lora_dev_handle := by
  by_cases hr : r_set = ESP_OK
  · refine ⟨if data ≠ 0 then 0 else 1, [], ?_, by simp, ?_, ?_, ?_, ?_, ?_⟩ <;>
      simp [llcc68_interface_reset_gpio_write, hr, State.call]
  · refine ⟨if data ≠ 0 then 0 else 1,
      [.ESP_LOGE "llcc68_spi_gpio_rst" "Reset gpio write failed!" []],
      ?_, by simp [PlatformCall.isSpiOrGpio], ?_, ?_, ?_, ?_, ?_⟩ <;>
      simp [llcc68_interface_reset_gpio_write, hr, State.call]

theorem filter_call_logw (s : State) (line : String) :
    (s.call (.ESP_LOGW "llcc68" "%s" line)).trace.filter PlatformCall.isSpiOrGpio
      = s.trace.filter PlatformCall.isSpiOrGpio := by
  simp [State.call, PlatformCall.isSpiOrGpio]

theorem vsnprintf_of_short (fmt : String) (h : fmt.length ≤ 127) :
    vsnprintf 128 fmt = fmt := by
  cases fmt with
  | mk cs =>
    have h1 : cs.length ≤ 127 := h
    simp [vsnprintf, List.take_of_length_le h1]

theorem debug_print_of_short (fmt : String) (s : State) (h : fmt.length ≤ 127) :
    llcc68_interface_debug_print fmt s = s.call (.ESP_LOGW "llcc68" "%s" fmt) := by
  simp [llcc68_interface_debug_print, vsnprintf_of_short fmt h]

/-- The format string that the `switch` of
`llcc68_interface_receive_callback` passes to `llcc68_interface_debug_print`
(the same chain of comparisons, with the call factored out). -/
def receive_callback_line (q : llcc68_irq_t) (type : Nat) : String :=
  if type = q.LLCC68_IRQ_TX_DONE then "llcc68: irq tx done.\n"
  else if type = q.LLCC68_IRQ_RX_DONE then "llcc68: irq rx done.\n"
  else if type = q.LLCC68_IRQ_PREAMBLE_DETECTED then
    "llcc68: irq preamble detected.\n"
  else if type = q.LLCC68_IRQ_SYNC_WORD_VALID then
    "llcc68: irq valid sync word detected.\n"
  else if type = q.LLCC68_IRQ_HEADER_VALID then "llcc68: irq valid header.\n"
  else if type = q.LLCC68_IRQ_HEADER_ERR then "llcc68: irq header error.\n"
  else if type = q.LLCC68_IRQ_CRC_ERR then "llcc68: irq crc error.\n"
  else if type = q.LLCC68_IRQ_CAD_DONE then "llcc68: irq cad done.\n"
  else if type = q.LLCC68_IRQ_CAD_DETECTED then "llcc68: irq cad detected.\n"
  else if type = q.LLCC68_IRQ_TIMEOUT then "llcc68: irq timeout.\n"
  else "llcc68: unknown code.\n"

theorem receive_callback_eq (q : llcc68_irq_t) (type buf len : Nat) (s : State) :
    llcc68_interface_receive_callback q type buf len s
      = s.call (.ESP_LOGW "llcc68" "%s" (receive_callback_line q type)) := by
  obtain ⟨a0, a1, a2, a3, a4, a5, a6, a7, a8, a9⟩ := q
  simp only [llcc68_interface_receive_callback, receive_callback_line]
  by_cases h0 : type = a0
  · rw [if_pos h0, if_pos h0]
    exact debug_print_of_short _ _ (by decide)
  rw [if_neg h0, if_neg h0]
  by_cases h1 : type = a1
  · rw [if_pos h1, if_pos h1]
    exact debug_print_of_short _ _ (by decide)
  rw [if_neg h1, if_neg h1]
  by_cases h2 : type = a2
  · rw [if_pos h2, if_pos h2]
    exact debug_print_of_short _ _ (by decide)
  rw [if_neg h2, if_neg h2]
  by_cases h3 : type = a3
  · rw [if_pos h3, if_pos h3]
    exact debug_print_of_short _ _ (by decide)
  rw [if_neg h3, if_neg h3]
  by_cases h4 : type = a4
  · rw [if_pos h4, if_pos h4]
    exact debug_print_of_short _ _ (by decide)
  rw [if_neg h4, if_neg h4]
  by_cases h5 : type = a5
  · rw [if_pos h5, if_pos h5]
    exact debug_print_of_short _ _ (by decide)
  rw [if_neg h5, if_neg h5]
  by_cases h6 : type = a6
  · rw [if_pos h6, if_pos h6]
    exact debug_print_of_short _ _ (by decide)
  rw [if_neg h6, if_neg h6]
  by_cases h7 : type = a7
  · rw [if_pos h7, if_pos h7]
    exact debug_print_of_short _ _ (by decide)
  rw [if_neg h7, if_neg h7]
  by_cases h8 : type = a8
  · rw [if_pos h8, if_pos h8]
    exact debug_print_of_short _ _ (by decide)
  rw [if_neg h8, if_neg h8]
  by_cases h9 : type = a9
  · rw [if_pos h9, if_pos h9]
    exact debug_print_of_short _ _ (by decide)
  rw [if_neg h9, if_neg h9]
  exact debug_print_of_short _ _ (by decide)

/-- C8: for every event code `type` (the ten `case` labels being pairwise
distinct, as C demands), `llcc68_interface_receive_callback` emits exactly one
line through `llcc68_interface_debug_print` and makes no other platform call;
the line does not depend on `buf` and `len`; each of the ten recognised kinds
has its own fixed line, and every other code gets
`"llcc68: unknown code.\n"`. -/
theorem receive_callback_one_line (q : llcc68_irq_t) (type : Nat)
    (h_distinct : q.labels.Nodup) :
    ∃ line : String,
      (∀ (buf len : Nat) (s : State),
          llcc68_interface_receive_callback q type buf len s
            = s.call (.ESP_LOGW "llcc68" "%s" line))
      ∧ (∀ (buf len : Nat) (s : State),
          (llcc68_interface_receive_callback q type buf len s).trace.filter
              PlatformCall.isSpiOrGpio
            = s.trace.filter PlatformCall.isSpiOrGpio)
      ∧ (type = q.LLCC68_IRQ_TX_DONE → line = "llcc68: irq tx done.\n")
      ∧ (type = q.LLCC68_IRQ_RX_DONE → line = "llcc68: irq rx done.\n")
      ∧ (type = q.LLCC68_IRQ_PREAMBLE_DETECTED →
          line = "llcc68: irq preamble detected.\n")
      ∧ (type = q.LLCC68_IRQ_SYNC_WORD_VALID →
          line = "llcc68: irq valid sync word detected.\n")
      ∧ (type = q.LLCC68_IRQ_HEADER_VALID → line = "llcc68: irq valid header.\n")
      ∧ (type = q.LLCC68_IRQ_HEADER_ERR → line = "llcc68: irq header error.\n")
      ∧ (type = q.LLCC68_IRQ_CRC_ERR → line = "llcc68: irq crc error.\n")
      ∧ (type = q.LLCC68_IRQ_CAD_DONE → line = "llcc68: irq cad done.\n")
      ∧ (type = q.LLCC68_IRQ_CAD_DETECTED → line = "llcc68: irq cad detected.\n")
      ∧ (type = q.LLCC68_IRQ_TIMEOUT → line = "llcc68: irq timeout.\n")
      ∧ (type ∉ q.labels → line = "llcc68: unknown code.\n") := by
  obtain ⟨a0, a1, a2, a3, a4, a5, a6, a7, a8, a9⟩ := q
  simp only [llcc68_irq_t.labels, List.nodup_cons, List.mem_cons,
    List.mem_singleton, List.not_mem_nil, not_or, or_false, List.nodup_nil,
    and_true, not_false_eq_true] at h_distinct
  simp only [llcc68_irq_t.labels, List.mem_cons, List.mem_singleton,
    List.not_mem_nil, not_or, or_false]
  refine ⟨receive_callback_line ⟨a0, a1, a2, a3, a4, a5, a6, a7, a8, a9⟩ type,
    fun buf len s => receive_callback_eq _ type buf len s,
    ?_, ?_, ?_, ?_, ?_, ?_, ?_, ?_, ?_, ?_, ?_, ?_⟩
  · intro buf len s
    rw [receive_callback_eq]
    exact filter_call_logw s _
  all_goals
    intro h
    simp only [receive_callback_line]
    by_cases h0 : type = a0
    · rw [if_pos h0]
      all_goals (exfalso; simp_all)
    rw [if_neg h0]
    by_cases h1 : type = a1
    · rw [if_pos h1]
      all_goals (exfalso; simp_all)
    rw [if_neg h1]
    by_cases h2 : type = a2
    · rw [if_pos h2]
      all_goals (exfalso; simp_all)
    rw [if_neg h2]
    by_cases h3 : type = a3
    · rw [if_pos h3]
      all_goals (exfalso; simp_all)
    rw [if_neg h3]
    by_cases h4 : type = a4
    · rw [if_pos h4]
      all_goals (exfalso; simp_all)
    rw [if_neg h4]
    by_cases h5 : type = a5
    · rw [if_pos h5]
      all_goals (exfalso; simp_all)
    rw [if_neg h5]
    by_cases h6 : type = a6
    · rw [if_pos h6]
      all_goals (exfalso; simp_all)
    rw [if_neg h6]
    by_cases h7 : type = a7
    · rw [if_pos h7]
      all_goals (exfalso; simp_all)
    rw [if_neg h7]
    by_cases h8 : type = a8
    · rw [if_pos h8]
      all_goals (exfalso; simp_all)
    rw [if_neg h8]
    by_cases h9 : type = a9
    · rw [if_pos h9]
      all_goals (exfalso; simp_all)
    rw [if_neg h9]
    all_goals (exfalso; simp_all)

theorem receive_callback_one_line_witness :
    ∃ line : String,
      (∀ (buf len : Nat) (s : State),
          llcc68_interface_receive_callback libdriver_irq 4 buf len s
            = s.call (.ESP_LOGW "llcc68" "%s" line))
      ∧ (∀ (buf len : Nat) (s : State),
          (llcc68_interface_receive_callback libdriver_irq 4 buf len s).trace.filter
              PlatformCall.isSpiOrGpio
            = s.trace.filter PlatformCall.isSpiOrGpio)
      ∧ (4 = libdriver_irq.LLCC68_IRQ_TX_DONE → line = "llcc68: irq tx done.\n")
      ∧ (4 = libdriver_irq.LLCC68_IRQ_RX_DONE → line = "llcc68: irq rx done.\n")
      ∧ (4 = libdriver_irq.LLCC68_IRQ_PREAMBLE_DETECTED →
          line = "llcc68: irq preamble detected.\n")
      ∧ (4 = libdriver_irq.LLCC68_IRQ_SYNC_WORD_VALID →
          line = "llcc68: irq valid sync word detected.\n")
      ∧ (4 = libdriver_irq.LLCC68_IRQ_HEADER_VALID →
          line = "llcc68: irq valid header.\n")
      ∧ (4 = libdriver_irq.LLCC68_IRQ_HEADER_ERR →
          line = "llcc68: irq header error.\n")
      ∧ (4 = libdriver_irq.LLCC68_IRQ_CRC_ERR → line = "llcc68: irq crc error.\n")
      ∧ (4 = libdriver_irq.LLCC68_IRQ_CAD_DONE → line = "llcc68: irq cad done.\n")
      ∧ (4 = libdriver_irq.LLCC68_IRQ_CAD_DETECTED →
          line = "llcc68: irq cad detected.\n")
      ∧ (4 = libdriver_irq.LLCC68_IRQ_TIMEOUT → line = "llcc68: irq timeout.\n")
      ∧ (4 ∉ libdriver_irq.labels → line = "llcc68: unknown code.\n") :=
  receive_callback_one_line libdriver_irq 4 (by decide)

end LLCC68
